import Mathlib

/-
Verification of the compile-and-execute pipeline of src/main.py
(Universal C++ Code Runner API).  The /run endpoint handler `run_code`
is shallowly embedded: the filesystem is a list of path names, the
behaviour of the external world (file writes, the g++ subprocess, the
compiled program's subprocess) is an explicit environment value, and the
handler body is a pure function from request, workspace token,
environment and filesystem to a response, a final filesystem and an
"execution stage was invoked" flag.
-/

/-- The scratch root, `TEMP_DIR = "temp"` (src/main.py line 23). -/
def TEMP_DIR : String := "temp"

/-- Request model `CodeRequest` (src/main.py lines 27-31).  Every optional
pydantic field may also be null (`none`); the defaults are those of the
source. -/
structure CodeRequest where
  code : String
  input : Option String := some ""
  timeout : Option Int := some 10
  compiler_flags : Option String := some "-O2 -std=c++17"
deriving DecidableEq

/-- Response model `CodeResponse` (src/main.py lines 33-39). -/
structure CodeResponse where
  success : Bool
  output : Option String := none
  error : Option String := none
  compilation_time : Option Nat := none
  execution_time : Option Nat := none
  memory_used : Option String := none
deriving DecidableEq

/-- `cpp_file = os.path.join(TEMP_DIR, f"code_(id).cpp")` (line 83). -/
def cpp_file (uid : String) : String := TEMP_DIR ++ "/code_" ++ uid ++ ".cpp"

/-- `exe_file = os.path.join(TEMP_DIR, f"code_(id)")` (line 84). -/
def exe_file (uid : String) : String := TEMP_DIR ++ "/code_" ++ uid

/-- `input_file = os.path.join(TEMP_DIR, f"input_(id).txt")` (line 85). -/
def input_file (uid : String) : String := TEMP_DIR ++ "/input_" ++ uid ++ ".txt"

/-- Python truthiness of an `Optional[str]`: `None` and `""` are falsy.
Used for `if request.input:` (lines 93 and 121). -/
def pyTruthy : Option String → Bool
  | none => false
  | some s => !(s == "")

/-- Python `f"..."` rendering of an `Optional[str]`: `None` prints as
the text `None`. -/
def pyStr : Option String → String
  | none => "None"
  | some s => s

/-- The compile command string
`f"g++ (cpp_file) -o (exe_file) (request.compiler_flags)"`
(src/main.py line 99): plain string concatenation, the flag set is
spliced in verbatim. -/
def compile_cmd (req : CodeRequest) (uid : String) : String :=
  "g++ " ++ cpp_file uid ++ " -o " ++ exe_file uid ++ " " ++ pyStr req.compiler_flags

/-- How a subprocess is launched: either a single string handed to a
shell (`subprocess.run(cmd, shell=True)`) or an argument vector executed
directly (`subprocess.run([prog, arg, ...])`). -/
inductive Invocation where
  | shellCmd (cmd : String)
  | argv (args : List String)
deriving DecidableEq

/-- The compiler invocation (src/main.py lines 101-107): the command
string is passed with `shell=True`, i.e. shell-interpreted. -/
def compileInvocation (req : CodeRequest) (uid : String) : Invocation :=
  Invocation.shellCmd (compile_cmd req uid)

/-- The program invocation (src/main.py lines 123-136): an argument
vector of one element. -/
def execInvocation (uid : String) : Invocation :=
  Invocation.argv [exe_file uid]

/-- How the child process's standard input is configured.
`fromFile p` is `stdin=open(p)`, `closed` is an explicitly
closed/empty stream (e.g. `stdin=subprocess.DEVNULL`, not used by the
source), `inherited` is the `subprocess.run` default of passing no
`stdin` argument, which makes the child inherit the server process's
own standard input. -/
inductive StdinSpec where
  | fromFile (path : String)
  | closed
  | inherited
deriving DecidableEq

/-- The stdin configuration of the execution stage (src/main.py lines
121-136): when `request.input` is truthy the opened input file is
passed, otherwise no `stdin` argument is given. -/
def execStdin (req : CodeRequest) (uid : String) : StdinSpec :=
  if pyTruthy req.input then StdinSpec.fromFile (input_file uid) else StdinSpec.inherited

/-- Outcome of one `subprocess.run` call: completion with an exit code
and captured streams, expiry of the `timeout` argument
(`subprocess.TimeoutExpired`), or some other exception (spawn failure
etc.) carrying its message. -/
inductive StepResult where
  | ok (returncode : Int) (stdout stderr : String)
  | timeout
  | exc (msg : String)
deriving DecidableEq

/-- The message of an `OSError` raised by `open(path, mode)` in CPython:
the `str` of the error embeds the offending file name after the errno
text (e.g. `Permission denied: temp/code_xxxxxxxx.cpp`). -/
def osErrorMsg (errText path : String) : String := errText ++ ": " ++ path

/-- The behaviour of the external world during one `run_code` call:
whether each file write raises (carrying the errno text), the outcome
and duration of the compile subprocess, the outcome and duration of the
execute subprocess, and the filesystem entries the compiled program
creates when it is actually run -- regular files in `execCreates` and
directories in `execCreatesDirs` (a program may `mkdir` a directory,
even at a token-derived path, and `os.remove` fails on a directory). -/
structure Env where
  writeCodeErr : Option String := none
  writeInputErr : Option String := none
  compile : StepResult := StepResult.ok 0 "" ""
  compTime : Nat := 0
  run : StepResult := StepResult.ok 0 "" ""
  execTime : Nat := 0
  execCreates : List String := []
  execCreatesDirs : List String := []
deriving DecidableEq

/-- Result of one embedded `run_code` call: the HTTP response value,
the scratch-root contents after the `finally` cleanup, and whether the
execution stage was invoked at all. -/
structure RunResult where
  response : CodeResponse
  fs : List String
  executed : Bool
deriving DecidableEq

/-- The generic exception handler's response,
`CodeResponse(success=False, error=f"Server Error: (e)")`
(src/main.py lines 160-164). -/
def serverError (msg : String) : CodeResponse :=
  { success := false, error := some ("Server Error: " ++ msg) }

/-- The `subprocess.TimeoutExpired` handler's response,
`CodeResponse(success=False, error="Time Limit Exceeded")`
(src/main.py lines 155-159). -/
def tleResponse : CodeResponse :=
  { success := false, error := some "Time Limit Exceeded" }

/-- The execution stage (src/main.py lines 118-153): the program is run
(its side-effect files appear), then a timeout maps to `tleResponse`, a
spawn exception to `serverError`, a non-zero exit to a runtime-error
response carrying stderr, and a zero exit to a success response
carrying stdout -- the latter two with both timings. -/
def execStage (env : Env) (fs : List String) : RunResult :=
  match env.run with
  | StepResult.timeout => ⟨tleResponse, env.execCreatesDirs ++ env.execCreates ++ fs, true⟩
  | StepResult.exc m => ⟨serverError m, env.execCreatesDirs ++ env.execCreates ++ fs, true⟩
  | StepResult.ok rc out err =>
    if rc != 0 then
      ⟨{ success := false, error := some ("Runtime Error:\n" ++ err),
         compilation_time := some env.compTime, execution_time := some env.execTime },
       env.execCreatesDirs ++ env.execCreates ++ fs, true⟩
    else
      ⟨{ success := true, output := some out,
         compilation_time := some env.compTime, execution_time := some env.execTime },
       env.execCreatesDirs ++ env.execCreates ++ fs, true⟩

/-- The compile stage and what follows it (src/main.py lines 97-153):
a compile timeout maps to `tleResponse`, a spawn exception to
`serverError`, a non-zero compiler exit to a compilation-error response
carrying the compiler stderr and the compile duration (execution never
attempted), and a zero exit creates the executable and proceeds to the
execution stage. -/
def afterWrites (env : Env) (uid : String) (fs : List String) : RunResult :=
  match env.compile with
  | StepResult.timeout => ⟨tleResponse, fs, false⟩
  | StepResult.exc m => ⟨serverError m, fs, false⟩
  | StepResult.ok rc _ cerr =>
    if rc != 0 then
      ⟨{ success := false, error := some ("Compilation Error:\n" ++ cerr),
         compilation_time := some env.compTime }, fs, false⟩
    else
      execStage env (exe_file uid :: fs)

/-- The body of the `try` block of `run_code` together with its two
`except` handlers (src/main.py lines 87-164): write the source file,
write the input file when `request.input` is truthy, then compile and
execute.  An exception raised by a write maps to the `serverError`
response; a write that succeeds puts the file into the scratch root. -/
def runBody (req : CodeRequest) (uid : String) (env : Env) (fs : List String) : RunResult :=
  match env.writeCodeErr with
  | some t => ⟨serverError (osErrorMsg t (cpp_file uid)), fs, false⟩
  | none =>
    if pyTruthy req.input then
      match env.writeInputErr with
      | some t => ⟨serverError (osErrorMsg t (input_file uid)), cpp_file uid :: fs, false⟩
      | none => afterWrites env uid (input_file uid :: cpp_file uid :: fs)
    else afterWrites env uid (cpp_file uid :: fs)

/-- The `finally` block of `run_code` (src/main.py lines 165-172):
for each of the three token-derived paths, when an entry is present its
removal is attempted -- `os.remove` deletes a regular file but raises
on an entry it cannot delete (e.g. a directory), and the bare
`except: pass` (lines 169-172) swallows that failure, leaving the
entry behind.  `undeletable` is the set of entries whose removal
fails.  No other path is touched. -/
def cleanup (uid : String) (undeletable fs : List String) : List String :=
  fs.filter (fun p =>
    !((p == cpp_file uid || p == exe_file uid || p == input_file uid) &&
      !(undeletable.contains p)))

/-- The whole `run_code` handler (src/main.py lines 77-172): the body
runs, then the `finally` cleanup runs on every path, and the response
assembled by the body is returned.  The entries whose deletion fails
are the directories the executed program created (they exist only when
the execution stage actually ran); the handler's own writes are
regular files, which `os.remove` deletes. -/
def run_code (req : CodeRequest) (uid : String) (env : Env) (fs : List String) : RunResult :=
  ⟨(runBody req uid env fs).response,
   cleanup uid
     (if (runBody req uid env fs).executed then env.execCreatesDirs else [])
     (runBody req uid env fs).fs,
   (runBody req uid env fs).executed⟩

/-- Wall-clock duration of one `subprocess.run` call whose true process
duration is `actual`: with `timeout=None` the call waits for the
process however long it runs; with `timeout=l` the wait is cut off
after `l` seconds (a non-positive limit expires at once). -/
def subprocessWait : Option Int → Nat → Nat
  | none, actual => actual
  | some l, actual => min actual l.toNat

/-- True process durations and compiler exit status for the wall-clock
model of one `run_code` call. -/
structure TimeEnv where
  compActual : Nat
  compExit : Int
  execActual : Nat
deriving DecidableEq

/-- Wall-clock time spent in the two subprocess waits of `run_code`:
the compile wait is bounded by the hard-coded `timeout=30`
(src/main.py line 106); the execute wait, reached only when the
compiler finishes in time with exit 0, is bounded by
`timeout=request.timeout` (lines 128 and 135). -/
def run_code_elapsed (req : CodeRequest) (t : TimeEnv) : Nat :=
  if t.compActual ≤ 30 ∧ t.compExit = 0 then
    subprocessWait (some 30) t.compActual + subprocessWait req.timeout t.execActual
  else
    subprocessWait (some 30) t.compActual

/-- Membership in the cleaned scratch root: a path survives `cleanup`
exactly when it was present and is either none of the three
token-derived paths or an entry whose attempted removal failed. -/
theorem mem_cleanup (uid p : String) (und fs : List String) :
    p ∈ cleanup uid und fs ↔
      p ∈ fs ∧ ((p ≠ cpp_file uid ∧ p ≠ exe_file uid ∧ p ≠ input_file uid) ∨ p ∈ und) := by
  simp [cleanup, List.mem_filter, List.elem_iff]
  tauto

/-- The body of `run_code` only ever adds files to the scratch root. -/
theorem runBody_fs_mono (req : CodeRequest) (uid : String) (env : Env) (fs : List String)
    (p : String) (hp : p ∈ fs) : p ∈ (runBody req uid env fs).fs := by
  unfold runBody afterWrites execStage
  repeat' split
  all_goals simp_all [List.mem_cons, List.mem_append]

/-- Claim C1 counterexample: the cleanup is only best-effort -- the
program, run with a token-revealing argv, can create a directory at the
token-derived input path; `os.remove` then raises, the bare
`except: pass` swallows it, and an entry whose name derives from the
request's workspace token survives `run_code`'s return. -/
theorem failed_delete_leaves_token_file :
    input_file "aaaabbbb" ∈
      (run_code { code := "int main();" } "aaaabbbb"
          { execCreatesDirs := ["temp/input_aaaabbbb.txt"] } []).fs := by
  decide

/-- Claim C1 as amended: for every request, the `finally` block attempts
the deletion of all three token-derived paths on every exit path
(success, compilation failure, execution failure, either timeout, and
any internal exception -- the environment is universally quantified);
whenever those attempted deletes succeed, in particular whenever the
executed program created no directory at a token-derived path, no file
whose name derives from the request's workspace token remains under the
scratch root. -/
theorem run_code_cleanup_attempted (req : CodeRequest) (uid : String) (env : Env)
    (fs : List String)
    (h1 : cpp_file uid ∉ env.execCreatesDirs)
    (h2 : exe_file uid ∉ env.execCreatesDirs)
    (h3 : input_file uid ∉ env.execCreatesDirs) :
    cpp_file uid ∉ (run_code req uid env fs).fs ∧
    exe_file uid ∉ (run_code req uid env fs).fs ∧
    input_file uid ∉ (run_code req uid env fs).fs := by
  refine ⟨fun h => ?_, fun h => ?_, fun h => ?_⟩
  all_goals
    rw [run_code] at h
    rw [mem_cleanup] at h
    rcases h with ⟨-, h | h⟩
    · tauto
    · revert h
      split <;> simp_all

/-- Witness for C1's amended theorem: a run whose program creates an
unrelated directory and an output file leaves no token-derived entry
behind. -/
theorem run_code_cleanup_attempted_w :
    cpp_file "aaaabbbb" ∉
      (run_code { code := "int main();", input := some "5 10" } "aaaabbbb"
          { execCreates := ["temp/out.txt"], execCreatesDirs := ["temp/unrelated"] } []).fs ∧
    exe_file "aaaabbbb" ∉
      (run_code { code := "int main();", input := some "5 10" } "aaaabbbb"
          { execCreates := ["temp/out.txt"], execCreatesDirs := ["temp/unrelated"] } []).fs ∧
    input_file "aaaabbbb" ∉
      (run_code { code := "int main();", input := some "5 10" } "aaaabbbb"
          { execCreates := ["temp/out.txt"], execCreatesDirs := ["temp/unrelated"] } []).fs :=
  run_code_cleanup_attempted { code := "int main();", input := some "5 10" } "aaaabbbb"
    { execCreates := ["temp/out.txt"], execCreatesDirs := ["temp/unrelated"] } []
    (by decide) (by decide) (by decide)

/-- Claim C2 (code bug): the compiler is not invoked as a
directly-executed argument vector; the source builds a single
shell-interpreted command string into which the caller's flag set is
concatenated verbatim, as the evaluation at a request whose flag set
carries shell metacharacters shows. -/
theorem compile_invocation_is_shell_string :
    compileInvocation { code := "int main();", compiler_flags := some "$(payload)" } "ab12cd34" =
      Invocation.shellCmd "g++ temp/code_ab12cd34.cpp -o temp/code_ab12cd34 $(payload)" := by
  decide

/-- Claim C3: for every request whose compilation exits non-zero (with
diagnostics `cerr`), `run_code` returns the compilation-failure response
carrying `Compilation Error:` followed by the compiler's stderr and the
compile duration; the execution stage is never invoked and no
execution-stage side-effect file appears. -/
theorem compile_failure_short_circuits (req : CodeRequest) (uid : String) (env : Env)
    (fs : List String) (rc : Int) (cout cerr : String)
    (hw : env.writeCodeErr = none) (hwi : env.writeInputErr = none)
    (hc : env.compile = StepResult.ok rc cout cerr) (hrc : rc ≠ 0) :
    (run_code req uid env fs).response =
      { success := false, error := some ("Compilation Error:\n" ++ cerr),
        compilation_time := some env.compTime } ∧
    (run_code req uid env fs).executed = false ∧
    (∀ p, p ∈ env.execCreates → p ∉ fs → p ∉ (run_code req uid env fs).fs) := by
  have hbody : runBody req uid env fs =
      ⟨{ success := false, error := some ("Compilation Error:\n" ++ cerr),
         compilation_time := some env.compTime },
       (if pyTruthy req.input then input_file uid :: cpp_file uid :: fs
        else cpp_file uid :: fs), false⟩ := by
    cases hp : pyTruthy req.input <;>
      simp [runBody, afterWrites, hw, hwi, hc, hp, hrc]
  refine ⟨by simp [run_code, hbody], by simp [run_code, hbody], ?_⟩
  intro p _ hpfs hmem
  rw [run_code, hbody] at hmem
  by_cases hp : pyTruthy req.input = true <;>
    simp [mem_cleanup, hp] at hmem <;> tauto

/-- Witness for C3 at a concrete request: compilation exiting 1 with
diagnostics text yields the compilation-error response, no execution,
and the sentinel file the program would have written is absent. -/
theorem compile_failure_short_circuits_w :
    (run_code { code := "int main( bad" } "aaaabbbb"
        { compile := StepResult.ok 1 "" "syntax error", compTime := 2,
          execCreates := ["temp/sentinel.txt"] } []).response =
      { success := false, error := some ("Compilation Error:\nsyntax error"),
        compilation_time := some 2 } ∧
    (run_code { code := "int main( bad" } "aaaabbbb"
        { compile := StepResult.ok 1 "" "syntax error", compTime := 2,
          execCreates := ["temp/sentinel.txt"] } []).executed = false ∧
    "temp/sentinel.txt" ∉ (run_code { code := "int main( bad" } "aaaabbbb"
        { compile := StepResult.ok 1 "" "syntax error", compTime := 2,
          execCreates := ["temp/sentinel.txt"] } []).fs := by
  have h := compile_failure_short_circuits { code := "int main( bad" } "aaaabbbb"
    { compile := StepResult.ok 1 "" "syntax error", compTime := 2,
      execCreates := ["temp/sentinel.txt"] } [] 1 "" "syntax error"
    rfl rfl rfl (by decide)
  exact ⟨h.1, h.2.1, h.2.2 "temp/sentinel.txt" (by decide) (by decide)⟩

/-- Claim C4: for every request whose compilation succeeds and whose
program terminates within the execute timeout, a non-zero exit code
yields the runtime-failure response carrying the program's stderr, and
a zero exit code yields the success response carrying stdout, whatever
text stderr contained. -/
theorem exec_exit_code_determines_result (req : CodeRequest) (uid : String) (env : Env)
    (fs : List String) (cout cerr : String) (rc : Int) (out err : String)
    (hw : env.writeCodeErr = none) (hwi : env.writeInputErr = none)
    (hc : env.compile = StepResult.ok 0 cout cerr)
    (hr : env.run = StepResult.ok rc out err) :
    (rc ≠ 0 → (run_code req uid env fs).response =
      { success := false, error := some ("Runtime Error:\n" ++ err),
        compilation_time := some env.compTime, execution_time := some env.execTime }) ∧
    (rc = 0 → (run_code req uid env fs).response =
      { success := true, output := some out,
        compilation_time := some env.compTime, execution_time := some env.execTime }) := by
  constructor <;> intro hrc <;>
    cases hp : pyTruthy req.input <;>
      simp [run_code, runBody, afterWrites, execStage, hw, hwi, hc, hr, hp, hrc]

/-- Witness for C4 at concrete requests: a program exiting 7 with
stderr text is reported as a runtime failure carrying that stderr, and
a program exiting 0 with non-empty stderr is reported as success
carrying its stdout. -/
theorem exec_exit_code_determines_result_w :
    (run_code { code := "int main();" } "aaaabbbb"
        { run := StepResult.ok 7 "" "boom", compTime := 1, execTime := 2 } []).response =
      { success := false, error := some ("Runtime Error:\nboom"),
        compilation_time := some 1, execution_time := some 2 } ∧
    (run_code { code := "int main();" } "ccccdddd"
        { run := StepResult.ok 0 "hi" "warning", compTime := 1, execTime := 2 } []).response =
      { success := true, output := some "hi",
        compilation_time := some 1, execution_time := some 2 } := by
  constructor
  · exact (exec_exit_code_determines_result { code := "int main();" } "aaaabbbb"
      { run := StepResult.ok 7 "" "boom", compTime := 1, execTime := 2 } [] "" "" 7 "" "boom"
      rfl rfl rfl rfl).1 (by decide)
  · exact (exec_exit_code_determines_result { code := "int main();" } "ccccdddd"
      { run := StepResult.ok 0 "hi" "warning", compTime := 1, execTime := 2 } [] "" "" 0 "hi"
      "warning" rfl rfl rfl rfl).2 rfl

/-- Claim C5 counterexample: the timeout response does not identify
which stage timed out -- a compile-stage timeout and an execute-stage
timeout produce the very same response, so no `TimedOut(which stage)`
discrimination exists. -/
theorem timeout_stage_not_identified :
    (run_code { code := "int main();" } "aaaabbbb"
        { compile := StepResult.timeout } []).response =
    (run_code { code := "int main();" } "ccccdddd"
        { run := StepResult.timeout } []).response := by
  decide

/-- Claim C5 as amended: when either stage times out, `run_code`
returns the fixed response with the generic message
`Time Limit Exceeded` (not the process's stderr), carrying no output
(so partial output is never reported as success) and no timings; this
response differs from every non-zero-exit runtime-failure response.
It does not identify which stage timed out. -/
theorem timeout_response_distinct_generic (req : CodeRequest) (uid : String) (env : Env)
    (fs : List String)
    (hw : env.writeCodeErr = none) (hwi : env.writeInputErr = none)
    (h : env.compile = StepResult.timeout ∨
         (∃ cout cerr, env.compile = StepResult.ok 0 cout cerr ∧
           env.run = StepResult.timeout)) :
    (run_code req uid env fs).response = tleResponse ∧
    (run_code req uid env fs).response.success = false ∧
    (run_code req uid env fs).response.output = none ∧
    (∀ err ct et, tleResponse ≠
      { success := false, error := some ("Runtime Error:\n" ++ err),
        compilation_time := some ct, execution_time := some et }) := by
  have hresp : (run_code req uid env fs).response = tleResponse := by
    rcases h with hc | ⟨cout, cerr, hc, hr⟩ <;>
      cases hp : pyTruthy req.input <;>
        simp [run_code, runBody, afterWrites, execStage, hw, hwi, hc, hp]
    all_goals rw [hr]
  refine ⟨hresp, by rw [hresp]; rfl, by rw [hresp]; rfl, ?_⟩
  intro err ct et hne
  simp [tleResponse] at hne

/-- Witness for C5's amended theorem: with the execute stage timing
out, the response is exactly the generic timeout response. -/
theorem timeout_response_distinct_generic_w :
    (run_code { code := "int main();" } "aaaabbbb"
        { run := StepResult.timeout } []).response = tleResponse ∧
    tleResponse ≠
      { success := false, error := some ("Runtime Error:\nboom"),
        compilation_time := some 1, execution_time := some 2 } := by
  have h := timeout_response_distinct_generic { code := "int main();" } "aaaabbbb"
    { run := StepResult.timeout } [] rfl rfl (Or.inr ⟨"", "", rfl, rfl⟩)
  exact ⟨h.1, h.2.2.2 "boom" 1 2⟩

/-- Claim C6 counterexample: the request's `timeout` field may be null
(`Optional[int]`), in which case the execute-stage `subprocess.run`
waits for the program however long it runs -- here a program running
10^9 seconds keeps `run_code` busy far beyond 30 + 10 seconds plus any
small constant. -/
theorem null_timeout_unbounded_elapsed :
    run_code_elapsed { code := "int main();", timeout := none }
      { compActual := 1, compExit := 0, execActual := 1000000000 } > 30 + 10 + 1000000 := by
  decide

/-- Claim C6 as amended: for every request whose `timeout` field is an
actual integer `l`, the wall-clock time `run_code` spends waiting on
its two subprocesses is at most 30 (the hard-coded compile bound) plus
`l` seconds; only a null `timeout` field permits an unbounded hang. -/
theorem elapsed_bounded_for_int_timeout (req : CodeRequest) (t : TimeEnv) (l : Int)
    (h : req.timeout = some l) :
    run_code_elapsed req t ≤ 30 + l.toNat := by
  rw [run_code_elapsed, h]
  split
  · exact Nat.add_le_add (min_le_right _ _) (min_le_right _ _)
  · exact le_trans (min_le_right _ _) (by omega)

/-- Witness for C6's amended theorem: with the default `timeout = 10`
and a program that would run forever, the waits still finish within
30 + 10 seconds. -/
theorem elapsed_bounded_for_int_timeout_w :
    run_code_elapsed { code := "int main();" }
      { compActual := 1, compExit := 0, execActual := 1000000000 } ≤ 30 + (10 : Int).toNat :=
  elapsed_bounded_for_int_timeout { code := "int main();" }
    { compActual := 1, compExit := 0, execActual := 1000000000 } 10 rfl

/-- The observable content of a response: its variant flag, output text
and diagnostic text -- everything except the timing fields. -/
def content (r : CodeResponse) : Bool × Option String × Option String :=
  (r.success, r.output, r.error)

/-- The response content produced after the files are written depends
only on the subprocess outcomes, not on the workspace token, the
filesystem, or the recorded durations. -/
theorem afterWrites_content_const (e1 e2 : Env) (uid uid' : String) (fs fs' : List String)
    (hc : e2.compile = e1.compile) (hr : e2.run = e1.run) :
    content (afterWrites e2 uid' fs').response = content (afterWrites e1 uid fs).response := by
  cases hcc : e1.compile with
  | timeout => simp [afterWrites, hcc, hc]
  | exc m => simp [afterWrites, hcc, hc]
  | ok rc out err =>
    by_cases hrc : rc = 0
    · cases hrr : e1.run <;>
        simp [afterWrites, execStage, hc, hr, hcc, hrr, hrc] <;>
        split <;> simp [content]
    · simp [afterWrites, content, hc, hcc, bne_iff_ne, hrc]

/-- Claim C7 counterexample: running the same request twice in
sequence, with the same external behaviour (an unwritable scratch
directory raising `Permission denied` on the source-file write in both
runs), yields responses whose diagnostic text differs -- each run's
error message embeds its own fresh workspace token. -/
theorem rerun_differs_on_internal_error :
    (run_code { code := "int main();" } "run2bbbb"
        { writeCodeErr := some "Permission denied" }
        (run_code { code := "int main();" } "run1aaaa"
            { writeCodeErr := some "Permission denied" } []).fs).response ≠
    (run_code { code := "int main();" } "run1aaaa"
        { writeCodeErr := some "Permission denied" } []).response := by
  decide

/-- Claim C7 as amended: provided no stage raises an internal
exception, running the same request twice sequentially (fresh workspace
token the second time, second run starting from the filesystem the
first run left behind, the two environments agreeing on every
subprocess outcome though not necessarily on durations) yields
responses with identical variant, output text and diagnostic text.
When an internal filesystem exception occurs, the error messages of the
two runs differ in the embedded per-run workspace path. -/
theorem rerun_same_content_without_internal_error (req : CodeRequest) (uid1 uid2 : String)
    (e1 e2 : Env) (fs : List String)
    (hw1 : e1.writeCodeErr = none) (hwi1 : e1.writeInputErr = none)
    (hw2 : e2.writeCodeErr = none) (hwi2 : e2.writeInputErr = none)
    (hc : e2.compile = e1.compile) (hr : e2.run = e1.run) :
    content (run_code req uid2 e2 (run_code req uid1 e1 fs).fs).response =
      content (run_code req uid1 e1 fs).response := by
  show content (runBody req uid2 e2 (run_code req uid1 e1 fs).fs).response =
    content (runBody req uid1 e1 fs).response
  cases hp : pyTruthy req.input <;>
    simp only [runBody, hw1, hwi1, hw2, hwi2, hp, if_true, if_false, Bool.false_eq_true] <;>
    exact afterWrites_content_const e1 e2 _ _ _ _ hc hr

/-- Witness for C7's amended theorem: a request with input, run twice
with distinct tokens under identical successful outcomes, produces the
same content both times. -/
theorem rerun_same_content_without_internal_error_w :
    content (run_code { code := "int main();", input := some "5 10" } "run2bbbb"
        { run := StepResult.ok 0 "Sum: 15" "", compTime := 3 }
        (run_code { code := "int main();", input := some "5 10" } "run1aaaa"
            { run := StepResult.ok 0 "Sum: 15" "", compTime := 1 } []).fs).response =
      content (run_code { code := "int main();", input := some "5 10" } "run1aaaa"
          { run := StepResult.ok 0 "Sum: 15" "", compTime := 1 } []).response :=
  rerun_same_content_without_internal_error { code := "int main();", input := some "5 10" }
    "run1aaaa" "run2bbbb"
    { run := StepResult.ok 0 "Sum: 15" "", compTime := 1 }
    { run := StepResult.ok 0 "Sum: 15" "", compTime := 3 }
    [] rfl rfl rfl rfl rfl rfl

/-- Claim C8 counterexample: for a request with empty stdin text the
execution stage passes no `stdin` argument, so the child's input stream
is inherited from the server process, not closed/empty. -/
theorem empty_input_stdin_not_closed :
    execStdin { code := "int main();", input := some "" } "aaaabbbb" = StdinSpec.inherited ∧
    StdinSpec.inherited ≠ StdinSpec.closed := by
  decide

/-- Claim C8 as amended: when the stdin text is present and non-empty
it is piped to the program's standard input (via the request's input
file); when it is absent or empty, no input is sent -- but the
program's input stream is inherited from the server process rather than
explicitly closed. -/
theorem stdin_piping_rule (req : CodeRequest) (uid : String) :
    (pyTruthy req.input = true → execStdin req uid = StdinSpec.fromFile (input_file uid)) ∧
    (pyTruthy req.input = false → execStdin req uid = StdinSpec.inherited) := by
  constructor <;> intro h <;> simp [execStdin, h]

/-- Witness for C8's amended theorem: a request with stdin text
`5 10` has the input file piped to the program. -/
theorem stdin_piping_rule_w :
    execStdin { code := "int main();", input := some "5 10" } "aaaabbbb" =
      StdinSpec.fromFile (input_file "aaaabbbb") :=
  (stdin_piping_rule { code := "int main();", input := some "5 10" } "aaaabbbb").1 (by decide)

/-- Claim C9 counterexample: a permission error while writing the
source file produces a response whose message embeds the raw filesystem
path carrying the request's workspace token `ab12cd34`. -/
theorem internal_error_message_leaks_token_path :
    (run_code { code := "int main();" } "ab12cd34"
        { writeCodeErr := some "Permission denied" } []).response.error =
      some ("Server Error: Permission denied: " ++ cpp_file "ab12cd34") ∧
    cpp_file "ab12cd34" = "temp/code_ab12cd34.cpp" := by
  decide

/-- Claim C9 as amended: an unexpected exception in any stage -- the
source-file write, the input-file write, the compiler spawn, or the
program spawn -- is mapped to a response with `success = false` whose
message is `Server Error: ` followed by the exception's text verbatim;
the message is not sanitized, so a file-system error message carries
the raw workspace path including the request's token. -/
theorem internal_error_passthrough (req : CodeRequest) (uid : String) (env : Env)
    (fs : List String) :
    (∀ t, env.writeCodeErr = some t →
      (run_code req uid env fs).response = serverError (osErrorMsg t (cpp_file uid))) ∧
    (∀ t, env.writeCodeErr = none → pyTruthy req.input = true →
      env.writeInputErr = some t →
      (run_code req uid env fs).response = serverError (osErrorMsg t (input_file uid))) ∧
    (∀ m, env.writeCodeErr = none → env.writeInputErr = none →
      env.compile = StepResult.exc m →
      (run_code req uid env fs).response = serverError m) ∧
    (∀ m cout cerr, env.writeCodeErr = none → env.writeInputErr = none →
      env.compile = StepResult.ok 0 cout cerr → env.run = StepResult.exc m →
      (run_code req uid env fs).response = serverError m) := by
  refine ⟨fun t h => ?_, fun t h hp hi => ?_, fun m h hi hc => ?_,
    fun m cout cerr h hi hc hr => ?_⟩
  · simp [run_code, runBody, h]
  · simp [run_code, runBody, h, hp, hi]
  · cases hp : pyTruthy req.input <;>
      simp [run_code, runBody, afterWrites, h, hi, hc, hp]
  · cases hp : pyTruthy req.input <;>
      simp [run_code, runBody, afterWrites, execStage, h, hi, hc, hr, hp]

/-- Witness for C9's amended theorem: each of the four stages, failing
concretely, yields the pass-through server-error response. -/
theorem internal_error_passthrough_w :
    (run_code { code := "int main();" } "ab12cd34"
        { writeCodeErr := some "Permission denied" } []).response =
      serverError (osErrorMsg "Permission denied" (cpp_file "ab12cd34")) ∧
    (run_code { code := "int main();", input := some "5 10" } "ab12cd34"
        { writeInputErr := some "No space left on device" } []).response =
      serverError (osErrorMsg "No space left on device" (input_file "ab12cd34")) ∧
    (run_code { code := "int main();" } "ab12cd34"
        { compile := StepResult.exc "No such file or directory" } []).response =
      serverError "No such file or directory" ∧
    (run_code { code := "int main();" } "ab12cd34"
        { run := StepResult.exc "Exec format error" } []).response =
      serverError "Exec format error" := by
  refine ⟨?_, ?_, ?_, ?_⟩
  · exact (internal_error_passthrough { code := "int main();" } "ab12cd34"
      { writeCodeErr := some "Permission denied" } []).1 "Permission denied" rfl
  · exact (internal_error_passthrough { code := "int main();", input := some "5 10" }
      "ab12cd34" { writeInputErr := some "No space left on device" } []).2.1
      "No space left on device" rfl (by decide) rfl
  · exact (internal_error_passthrough { code := "int main();" } "ab12cd34"
      { compile := StepResult.exc "No such file or directory" } []).2.2.1
      "No such file or directory" rfl rfl rfl
  · exact (internal_error_passthrough { code := "int main();" } "ab12cd34"
      { run := StepResult.exc "Exec format error" } []).2.2.2
      "Exec format error" "" "" rfl rfl rfl rfl

/-- Claim C10: the cleanup step removes at most the three paths derived
from the request's own token -- every other path survives `cleanup`
unchanged, and any other file present before the request (e.g. one
belonging to another in-flight request) is still present after
`run_code` returns. -/
theorem cleanup_frame_other_files (req : CodeRequest) (uid : String) (env : Env)
    (fs und : List String) (p : String)
    (h1 : p ≠ cpp_file uid) (h2 : p ≠ exe_file uid) (h3 : p ≠ input_file uid) :
    (p ∈ cleanup uid und fs ↔ p ∈ fs) ∧
    (p ∈ fs → p ∈ (run_code req uid env fs).fs) := by
  constructor
  · rw [mem_cleanup]; tauto
  · intro hp
    show p ∈ cleanup uid
      (if (runBody req uid env fs).executed then env.execCreatesDirs else [])
      (runBody req uid env fs).fs
    rw [mem_cleanup]
    exact ⟨runBody_fs_mono req uid env fs p hp, Or.inl ⟨h1, h2, h3⟩⟩

/-- Witness for C10: another request's source file survives an entire
`run_code` call of a request with a different token. -/
theorem cleanup_frame_other_files_w :
    ("temp/code_other123.cpp" ∈ cleanup "aaaabbbb" [] ["temp/code_other123.cpp"]) ∧
    "temp/code_other123.cpp" ∈
      (run_code { code := "int main();" } "aaaabbbb" ({} : Env)
        ["temp/code_other123.cpp"]).fs := by
  have h := cleanup_frame_other_files { code := "int main();" } "aaaabbbb" ({} : Env)
    ["temp/code_other123.cpp"] [] "temp/code_other123.cpp" (by decide) (by decide) (by decide)
  exact ⟨h.1.mpr (by decide), h.2 (by decide)⟩
